import Mathlib

/-!
# Print-job progress and flag operations of `CardReader`

A shallow embedding of the inline print-job members of `class CardReader`
(`Marlin/src/sd/cardreader.h`): the flag word `card_flags_t`, the counters
`filesize` and `sdpos`, the queries `isMounted`, `isFileOpen`, `isPrinting`,
`isPaused`, `percentDone`, `permyriadDone`, and the state-changing members
`abortFilePrintSoon`, `pauseSDPrint`, `setIndex` and `get`.

Conventions.
* `uint32_t` values are natural numbers; every place where the C++ arithmetic
  is done in 32 bits carries an explicit `% 2 ^ 32`, and the conversions to the
  `uint8_t` / `uint16_t` return types carry `% 2 ^ 8` / `% 2 ^ 16`.
* Unsigned division is `udiv`, which has no result when the divisor is zero
  (the C++ expression `a / 0` has undefined behaviour), so the progress
  functions return `Option Nat`.
* `MediaFile` (declared in `SdFile.h`, which is outside this header) is
  represented by the three queries the header relies on; the effect of the
  external calls `file.read()` and `file.seekSet(pos)` is a parameter
  (`MediaOps`).
-/

/-- The flag word `card_flags_t` (cardreader.h, lines 75-91).  The last two
bits exist only when `DO_LIST_BIN_FILES` / `BINARY_FILE_TRANSFER` are enabled;
no member modelled here reads or writes them. -/
structure card_flags_t where
  saving : Bool
  logging : Bool
  sdprinting : Bool
  sdprintdone : Bool
  mounted : Bool
  filenameIsDir : Bool
  workDirIsRoot : Bool
  abort_sd_printing : Bool
  filenameIsBin : Bool
  binary_mode : Bool
deriving DecidableEq, Repr

/-- The part of a `MediaFile` handle that the header observes: `isOpen()`,
`curPosition()` and `fileSize()`. -/
structure MediaFile where
  isOpen : Bool
  curPosition : Nat
  fileSize : Nat
deriving DecidableEq, Repr

/-- The external media calls made by the inline members.  `read f` is the
handle after `file.read()` together with the value returned; `seekSet f pos`
is the handle after `file.seekSet(pos)`. -/
structure MediaOps where
  read : MediaFile → MediaFile × Int
  seekSet : MediaFile → Nat → MediaFile

/-- The static job state of `class CardReader` that the inline members use:
`flag`, `file`, `filesize` and `sdpos` (cardreader.h, lines 102, 327-330). -/
structure CardReader where
  flag : card_flags_t
  file : MediaFile
  filesize : Nat
  sdpos : Nat
deriving DecidableEq, Repr

/-- Unsigned machine division: no result for a zero divisor. -/
def udiv (a b : Nat) : Option Nat :=
  if b = 0 then none else some (a / b)

namespace CardReader

/-- Source: `static bool isMounted() { return flag.mounted; }`. -/
def isMounted (s : CardReader) : Bool := s.flag.mounted

/-- Source: `static bool isFileOpen() { return isMounted() && file.isOpen(); }`. -/
def isFileOpen (s : CardReader) : Bool := s.isMounted && s.file.isOpen

/-- Source: `static uint32_t getFileSize() { return filesize; }`. -/
def getFileSize (s : CardReader) : Nat := s.filesize

/-- Source: `static uint32_t getIndex() { return sdpos; }`. -/
def getIndex (s : CardReader) : Nat := s.sdpos

/-- Source: `static bool eof() { return getIndex() >= getFileSize(); }`. -/
def eof (s : CardReader) : Bool := decide (s.getFileSize ≤ s.getIndex)

/-- Source: `static bool isPrinting() { return flag.sdprinting; }`. -/
def isPrinting (s : CardReader) : Bool := s.flag.sdprinting

/-- Source: `static bool isPaused() { return isFileOpen() && !isPrinting(); }`. -/
def isPaused (s : CardReader) : Bool := s.isFileOpen && !s.isPrinting

/-- Source: `static void abortFilePrintSoon() { flag.abort_sd_printing = isFileOpen(); }`. -/
def abortFilePrintSoon (s : CardReader) : CardReader :=
  { s with flag := { s.flag with abort_sd_printing := s.isFileOpen } }

/-- Source: `static void pauseSDPrint() { flag.sdprinting = false; }`. -/
def pauseSDPrint (s : CardReader) : CardReader :=
  { s with flag := { s.flag with sdprinting := false } }

/-- The divisor `(filesize + 99) / 100` of `percentDone`, in `uint32_t`. -/
def percentDivisor (filesize : Nat) : Nat := (filesize + 99) % 2 ^ 32 / 100

/-- The divisor `(filesize + 9999) / 10000` of `permyriadDone`, in `uint32_t`. -/
def permyriadDivisor (filesize : Nat) : Nat := (filesize + 9999) % 2 ^ 32 / 10000

/-- Source (lines 175-179):
`if (flag.sdprintdone) return 10000;`
`if (isFileOpen() && filesize) return sdpos / ((filesize + 9999) / 10000);`
`return 0;` with the result converted to `uint16_t`. -/
def permyriadDone (s : CardReader) : Option Nat :=
  if s.flag.sdprintdone then some 10000
  else if s.isFileOpen && s.filesize != 0 then
    (udiv s.sdpos (permyriadDivisor s.filesize)).map (fun q => q % 2 ^ 16)
  else some 0

/-- Source (lines 181-185):
`if (flag.sdprintdone) return 100;`
`if (isFileOpen() && filesize) return sdpos / ((filesize + 99) / 100);`
`return 0;` with the result converted to `uint8_t`. -/
def percentDone (s : CardReader) : Option Nat :=
  if s.flag.sdprintdone then some 100
  else if s.isFileOpen && s.filesize != 0 then
    (udiv s.sdpos (percentDivisor s.filesize)).map (fun q => q % 2 ^ 8)
  else some 0

/-- Source: `static int16_t get() { int16_t out = (int16_t)file.read();
sdpos = file.curPosition(); return out; }`.  The new state and the value
returned. -/
def get (io : MediaOps) (s : CardReader) : CardReader × Int :=
  let r := io.read s.file
  ({ s with file := r.1, sdpos := r.1.curPosition % 2 ^ 32 }, r.2)

/-- Source: `static void setIndex(const uint32_t index) { file.seekSet((sdpos = index)); }`. -/
def setIndex (io : MediaOps) (s : CardReader) (index : Nat) : CardReader :=
  let pos := index % 2 ^ 32
  { s with sdpos := pos, file := io.seekSet s.file pos }

end CardReader

/-- A job state with every flag clear except those given, used for concrete evaluation. -/
def mkCard (mounted fileOpen printing done abort : Bool) (filesize sdpos : Nat) : CardReader :=
  { flag := { saving := false, logging := false, sdprinting := printing, sdprintdone := done,
              mounted := mounted, filenameIsDir := false, workDirIsRoot := true,
              abort_sd_printing := abort, filenameIsBin := false, binary_mode := false },
    file := { isOpen := fileOpen, curPosition := sdpos, fileSize := filesize },
    filesize := filesize,
    sdpos := sdpos }

/-- Modelled from the spec: the media handle of section 4.1 (`SdFile.h` is not
part of this header), as a concrete instance of `MediaOps`: `read` consumes one
byte when the handle is open and not at its end and fails with `-1` otherwise,
`seek` repositions an open handle within its size.  File contents are not
represented, so a successful read yields `0`.  Used only to evaluate the
members at concrete states; the theorems hold for every `MediaOps`. -/
def sdFileOps : MediaOps where
  read f :=
    if f.isOpen && decide (f.curPosition < f.fileSize) then
      ({ f with curPosition := f.curPosition + 1 }, 0)
    else (f, -1)
  seekSet f pos :=
    if f.isOpen && decide (pos ≤ f.fileSize) then { f with curPosition := pos } else f

/-- The spec's wording of the scaled progress, `floor(sdpos / ceil(filesize / n))`,
over the rationals (`n = 100` for percent, `n = 10000` for permyriad). -/
def specScaled (n sdpos filesize : Nat) : Nat :=
  ⌊(sdpos : ℚ) / ((⌈(filesize : ℚ) / (n : ℚ)⌉₊ : Nat) : ℚ)⌋₊

/-- The exact scaled ratio `floor(n * sdpos / filesize)` over the rationals. -/
def specRatio (n sdpos filesize : Nat) : Nat :=
  ⌊((n : ℚ) * (sdpos : ℚ)) / (filesize : ℚ)⌋₊

/-! ## Arithmetic of the rounded-up divisor -/

theorem udiv_of_pos (a b : Nat) (hb : 0 < b) : udiv a b = some (a / b) := by
  unfold udiv
  rw [if_neg (Nat.pos_iff_ne_zero.mp hb)]

theorem udiv_zero (a : Nat) : udiv a 0 = none := by
  unfold udiv
  rw [if_pos rfl]

theorem percentDivisor_eq (f : Nat) (hw : f + 99 < 2 ^ 32) :
    CardReader.percentDivisor f = (f + 99) / 100 := by
  unfold CardReader.percentDivisor
  rw [Nat.mod_eq_of_lt hw]

theorem permyriadDivisor_eq (f : Nat) (hw : f + 9999 < 2 ^ 32) :
    CardReader.permyriadDivisor f = (f + 9999) / 10000 := by
  unfold CardReader.permyriadDivisor
  rw [Nat.mod_eq_of_lt hw]

/-- The ceiling of `f / n` over the rationals is the integer quotient `(f + (n - 1)) / n`. -/
theorem ceil_div_eq (f n : Nat) (hn : 0 < n) :
    ⌈(f : ℚ) / (n : ℚ)⌉₊ = (f + (n - 1)) / n := by
  have hnq : (0 : ℚ) < (n : ℚ) := by exact_mod_cast hn
  apply le_antisymm
  · rw [Nat.ceil_le, div_le_iff₀ hnq]
    have h1 : f ≤ (f + (n - 1)) / n * n := by
      have h2 := Nat.div_add_mod (f + (n - 1)) n
      have h3 := Nat.mod_lt (f + (n - 1)) hn
      have h4 : (f + (n - 1)) / n * n = n * ((f + (n - 1)) / n) := Nat.mul_comm _ _
      omega
    exact_mod_cast h1
  · have h1 : (f : ℚ) / (n : ℚ) ≤ (⌈(f : ℚ) / (n : ℚ)⌉₊ : ℚ) := Nat.le_ceil _
    rw [div_le_iff₀ hnq] at h1
    have h2 : f ≤ ⌈(f : ℚ) / (n : ℚ)⌉₊ * n := by exact_mod_cast h1
    rw [Nat.div_le_iff_le_mul_add_pred hn]
    have h4 : ⌈(f : ℚ) / (n : ℚ)⌉₊ * n = n * ⌈(f : ℚ) / (n : ℚ)⌉₊ := Nat.mul_comm _ _
    omega

theorem specScaled_eq (n p f : Nat) (hn : 0 < n) :
    specScaled n p f = p / ((f + (n - 1)) / n) := by
  unfold specScaled
  rw [ceil_div_eq f n hn, Nat.floor_div_eq_div]

theorem specRatio_eq (n p f : Nat) : specRatio n p f = n * p / f := by
  unfold specRatio
  have h : ((n : ℚ) * (p : ℚ)) = ((n * p : Nat) : ℚ) := by push_cast; rfl
  rw [h, Nat.floor_div_eq_div]

/-- With `d = (f + (n - 1)) / n` the rounded-up divisor, `n * d` covers `f`. -/
theorem le_mul_ceilDivisor (f n : Nat) (hn : 0 < n) : f ≤ n * ((f + (n - 1)) / n) := by
  have h2 := Nat.div_add_mod (f + (n - 1)) n
  have h3 := Nat.mod_lt (f + (n - 1)) hn
  omega

theorem ceilDivisor_pos (f n : Nat) (hn : 0 < n) (hf : 0 < f) : 0 < (f + (n - 1)) / n := by
  apply Nat.div_pos _ hn
  omega

/-- Dividing by the rounded-up divisor never exceeds the exact scaled ratio. -/
theorem div_ceilDivisor_le (p f n : Nat) (hn : 0 < n) (hf : 0 < f) :
    p / ((f + (n - 1)) / n) ≤ n * p / f := by
  have hd := ceilDivisor_pos f n hn hf
  have hc := le_mul_ceilDivisor f n hn
  rw [Nat.le_div_iff_mul_le hf]
  calc p / ((f + (n - 1)) / n) * f
      ≤ p / ((f + (n - 1)) / n) * (n * ((f + (n - 1)) / n)) := Nat.mul_le_mul_left _ hc
    _ = n * (p / ((f + (n - 1)) / n) * ((f + (n - 1)) / n)) := by ring
    _ ≤ n * p := Nat.mul_le_mul_left _ (Nat.div_mul_le_self _ _)

/-- Below the file size the quotient by the rounded-up divisor stays below the scale. -/
theorem div_ceilDivisor_lt (p f n : Nat) (hn : 0 < n) (hlt : p < f) :
    p / ((f + (n - 1)) / n) < n := by
  have hd := ceilDivisor_pos f n hn (by omega : 0 < f)
  have hc := le_mul_ceilDivisor f n hn
  rw [Nat.div_lt_iff_lt_mul hd]
  omega

/-- Up to the file size the quotient by the rounded-up divisor is at most the scale. -/
theorem div_ceilDivisor_le_scale (p f n : Nat) (hn : 0 < n) (hf : 0 < f) (hle : p ≤ f) :
    p / ((f + (n - 1)) / n) ≤ n := by
  have hd := ceilDivisor_pos f n hn hf
  have hc := le_mul_ceilDivisor f n hn
  rw [← Nat.lt_succ_iff, Nat.div_lt_iff_lt_mul hd]
  have h4 : Nat.succ n * ((f + (n - 1)) / n) = n * ((f + (n - 1)) / n) + (f + (n - 1)) / n := by
    rw [Nat.succ_mul]
  omega

/-- Up to the file size, the quotient by the rounded-up percent divisor is
100 exactly at the end of a file whose size is a multiple of 100. -/
theorem div_percentDivisor_eq_iff (p f : Nat) (hf : 0 < f) (hle : p ≤ f) :
    p / ((f + 99) / 100) = 100 ↔ (p = f ∧ f % 100 = 0) := by
  have hd : 0 < (f + 99) / 100 := ceilDivisor_pos f 100 (by decide) hf
  constructor
  · intro h
    have h1 : p / ((f + 99) / 100) * ((f + 99) / 100) ≤ p := Nat.div_mul_le_self _ _
    rw [h] at h1
    omega
  · rintro ⟨hp, hm⟩
    have h1 : f = 100 * ((f + 99) / 100) := by omega
    rw [hp]
    nth_rewrite 1 [h1]
    exact Nat.mul_div_cancel 100 hd

/-! ## Closed forms of the progress functions -/

/-- With a file open, print-done clear and a non-wrapping non-zero size, and
the position within the size, `percentDone` is the plain quotient by the
rounded-up divisor (the `uint8_t` conversion loses nothing). -/
theorem percentDone_open (s : CardReader) (hopen : s.isFileOpen = true)
    (hdone : s.flag.sdprintdone = false) (hpos : 0 < s.filesize)
    (hw : s.filesize + 99 < 2 ^ 32) (hle : s.sdpos ≤ s.filesize) :
    s.percentDone = some (s.sdpos / ((s.filesize + 99) / 100)) := by
  have hd : 0 < (s.filesize + 99) / 100 := ceilDivisor_pos s.filesize 100 (by decide) hpos
  have hq : s.sdpos / ((s.filesize + 99) / 100) ≤ 100 :=
    div_ceilDivisor_le_scale s.sdpos s.filesize 100 (by decide) hpos hle
  have hne : (s.filesize != 0) = true := by
    rw [bne_iff_ne]
    omega
  unfold CardReader.percentDone
  rw [hdone, hopen, hne, percentDivisor_eq s.filesize hw, udiv_of_pos _ _ hd]
  have hmod : s.sdpos / ((s.filesize + 99) / 100) % 2 ^ 8 = s.sdpos / ((s.filesize + 99) / 100) :=
    Nat.mod_eq_of_lt (by omega)
  rw [Option.map_some', hmod]
  rfl

/-- The same closed form for `permyriadDone` and its `uint16_t` result. -/
theorem permyriadDone_open (s : CardReader) (hopen : s.isFileOpen = true)
    (hdone : s.flag.sdprintdone = false) (hpos : 0 < s.filesize)
    (hw : s.filesize + 9999 < 2 ^ 32) (hle : s.sdpos ≤ s.filesize) :
    s.permyriadDone = some (s.sdpos / ((s.filesize + 9999) / 10000)) := by
  have hd : 0 < (s.filesize + 9999) / 10000 :=
    ceilDivisor_pos s.filesize 10000 (by decide) hpos
  have hq : s.sdpos / ((s.filesize + 9999) / 10000) ≤ 10000 :=
    div_ceilDivisor_le_scale s.sdpos s.filesize 10000 (by decide) hpos hle
  have hne : (s.filesize != 0) = true := by
    rw [bne_iff_ne]
    omega
  unfold CardReader.permyriadDone
  rw [hdone, hopen, hne, permyriadDivisor_eq s.filesize hw, udiv_of_pos _ _ hd]
  have hmod : s.sdpos / ((s.filesize + 9999) / 10000) % 2 ^ 16
      = s.sdpos / ((s.filesize + 9999) / 10000) :=
    Nat.mod_eq_of_lt (by omega)
  rw [Option.map_some', hmod]
  rfl

/-- With print-done set both progress functions return their full scale. -/
theorem progress_full_of_done (s : CardReader) (h : s.flag.sdprintdone = true) :
    s.percentDone = some 100 ∧ s.permyriadDone = some 10000 := by
  unfold CardReader.percentDone CardReader.permyriadDone
  simp [h]

/-- With print-done clear and no file open or a zero size, both progress functions return 0. -/
theorem progress_zero_of_closed (s : CardReader) (hdone : s.flag.sdprintdone = false)
    (h : s.isFileOpen = false ∨ s.filesize = 0) :
    s.percentDone = some 0 ∧ s.permyriadDone = some 0 := by
  unfold CardReader.percentDone CardReader.permyriadDone
  rcases h with h | h
  · simp [hdone, h]
  · simp [hdone, h]

/-! ## Claims about `percentDone` and `permyriadDone` -/

/-- C1: in every job state whose print-done flag `sdprintdone` is set,
`percentDone()` returns exactly 100 and `permyriadDone()` exactly 10000,
whatever `mounted`, the file handle, `filesize` and `sdpos` are. -/
theorem C1_done_reports_full (s : CardReader) (h : s.flag.sdprintdone = true) :
    s.percentDone = some 100 ∧ s.permyriadDone = some 10000 :=
  progress_full_of_done s h

/-- C1 at the state reached after a finished job: card released, no file open,
both counters zero, print-done set. -/
theorem C1_done_reports_full_witness :
    (mkCard false false false true false 0 0).flag.sdprintdone = true ∧
    (mkCard false false false true false 0 0).percentDone = some 100 ∧
    (mkCard false false false true false 0 0).permyriadDone = some 10000 :=
  ⟨by decide, C1_done_reports_full (mkCard false false false true false 0 0) (by decide)⟩

/-- C2 as stated fails: with the card mounted, no file open, `filesize = 0`
and print-done set, `percentDone()` is 100 and `permyriadDone()` is 10000, not 0. -/
theorem C2_counterexample :
    ((mkCard true false false true false 0 0).isFileOpen = false ∧
      (mkCard true false false true false 0 0).filesize = 0) ∧
    (mkCard true false false true false 0 0).percentDone = some 100 ∧
    (mkCard true false false true false 0 0).permyriadDone = some 10000 ∧
    ¬ ((mkCard true false false true false 0 0).percentDone = some 0 ∧
       (mkCard true false false true false 0 0).permyriadDone = some 0) := by
  decide

/-- C2 (amended): in every job state whose print-done flag is clear and in
which no file is open (not mounted, or the handle not open) or `filesize` is
zero, `percentDone()` returns 0 and `permyriadDone()` returns 0. -/
theorem C2_closed_reports_zero (s : CardReader) (hdone : s.flag.sdprintdone = false)
    (h : s.isFileOpen = false ∨ s.filesize = 0) :
    s.percentDone = some 0 ∧ s.permyriadDone = some 0 :=
  progress_zero_of_closed s hdone h

/-- C2 (amended) at a mounted card whose handle is closed, with stale counters. -/
theorem C2_closed_reports_zero_witness :
    (mkCard true false false false false 500 250).flag.sdprintdone = false ∧
    ((mkCard true false false false false 500 250).isFileOpen = false ∨
      (mkCard true false false false false 500 250).filesize = 0) ∧
    (mkCard true false false false false 500 250).percentDone = some 0 ∧
    (mkCard true false false false false 500 250).permyriadDone = some 0 :=
  ⟨by decide, by decide,
    C2_closed_reports_zero (mkCard true false false false false 500 250) (by decide) (by decide)⟩

/-- C3 as stated fails: with a file of 100 bytes open, read to position 100,
and print-done still clear, `percentDone()` is already 100. -/
theorem C3_counterexample :
    (mkCard true true true false false 100 100).flag.sdprintdone = false ∧
    (mkCard true true true false false 100 100).sdpos ≤
      (mkCard true true true false false 100 100).filesize ∧
    (mkCard true true true false false 100 100).percentDone = some 100 := by
  decide

/-- C3 (amended): in every job state whose print-done flag is clear, with
`sdpos ≤ filesize` and `filesize + 99` not wrapping around 32 bits,
`percentDone()` returns a value, and that value is 100 exactly when a file is
open, the position is at the end (`sdpos = filesize`) and `filesize` is a
non-zero multiple of 100; in every other such state it is different from 100. -/
theorem C3_full_only_at_end (s : CardReader) (hdone : s.flag.sdprintdone = false)
    (hle : s.sdpos ≤ s.filesize) (hw : s.filesize + 99 < 2 ^ 32) :
    ∃ v, s.percentDone = some v ∧
      (v = 100 ↔ (s.isFileOpen = true ∧ 0 < s.filesize ∧ s.sdpos = s.filesize ∧
        s.filesize % 100 = 0)) := by
  cases hopen : s.isFileOpen with
  | false =>
    refine ⟨0, (progress_zero_of_closed s hdone (Or.inl hopen)).1, ?_⟩
    constructor
    · intro h
      exact absurd h (by decide)
    · rintro ⟨h, -⟩
      exact absurd h (by decide)
  | true =>
    rcases Nat.eq_zero_or_pos s.filesize with hz | hpos
    · refine ⟨0, (progress_zero_of_closed s hdone (Or.inr hz)).1, ?_⟩
      constructor
      · intro h
        exact absurd h (by decide)
      · rintro ⟨-, h, -⟩
        omega
    · refine ⟨s.sdpos / ((s.filesize + 99) / 100),
        percentDone_open s hopen hdone hpos hw hle, ?_⟩
      exact div_percentDivisor_eq_iff s.sdpos s.filesize hpos hle |>.trans
        ⟨fun h => ⟨rfl, hpos, h.1, h.2⟩, fun h => ⟨h.2.2.1, h.2.2.2⟩⟩

/-- C3 (amended) at the end of a 12345-byte file, whose size is not a multiple
of 100: the value returned is not 100. -/
theorem C3_full_only_at_end_witness :
    (mkCard true true true false false 12345 12345).flag.sdprintdone = false ∧
    (mkCard true true true false false 12345 12345).sdpos ≤
      (mkCard true true true false false 12345 12345).filesize ∧
    (mkCard true true true false false 12345 12345).filesize + 99 < 2 ^ 32 ∧
    (mkCard true true true false false 12345 12345).percentDone = some 99 ∧
    (∃ v, (mkCard true true true false false 12345 12345).percentDone = some v ∧
      (v = 100 ↔ ((mkCard true true true false false 12345 12345).isFileOpen = true ∧
        0 < (mkCard true true true false false 12345 12345).filesize ∧
        (mkCard true true true false false 12345 12345).sdpos =
          (mkCard true true true false false 12345 12345).filesize ∧
        (mkCard true true true false false 12345 12345).filesize % 100 = 0))) :=
  ⟨by decide, by decide, by decide, by decide,
    C3_full_only_at_end (mkCard true true true false false 12345 12345)
      (by decide) (by decide) (by decide)⟩

/-- Where the divisor does not wrap, both progress functions return a value
and are non-decreasing in the position up to the file size, for every flag
state and file handle. -/
theorem progress_mono_of_no_wrap (s : CardReader) (p1 p2 : Nat)
    (h12 : p1 ≤ p2) (h2 : p2 ≤ s.filesize) :
    (s.filesize + 99 < 2 ^ 32 →
      ∃ v1 v2, ({ s with sdpos := p1 } : CardReader).percentDone = some v1 ∧
        ({ s with sdpos := p2 } : CardReader).percentDone = some v2 ∧ v1 ≤ v2) ∧
    (s.filesize + 9999 < 2 ^ 32 →
      ∃ v1 v2, ({ s with sdpos := p1 } : CardReader).permyriadDone = some v1 ∧
        ({ s with sdpos := p2 } : CardReader).permyriadDone = some v2 ∧ v1 ≤ v2) := by
  cases hdone : s.flag.sdprintdone with
  | true =>
    have e1 := progress_full_of_done ({ s with sdpos := p1 } : CardReader) hdone
    have e2 := progress_full_of_done ({ s with sdpos := p2 } : CardReader) hdone
    exact ⟨fun _ => ⟨100, 100, e1.1, e2.1, le_refl _⟩,
      fun _ => ⟨10000, 10000, e1.2, e2.2, le_refl _⟩⟩
  | false =>
    by_cases hc : s.isFileOpen = false ∨ s.filesize = 0
    · have e1 := progress_zero_of_closed ({ s with sdpos := p1 } : CardReader) hdone hc
      have e2 := progress_zero_of_closed ({ s with sdpos := p2 } : CardReader) hdone hc
      exact ⟨fun _ => ⟨0, 0, e1.1, e2.1, le_refl _⟩, fun _ => ⟨0, 0, e1.2, e2.2, le_refl _⟩⟩
    · have hopen : s.isFileOpen = true := by
        cases h : s.isFileOpen with
        | false => exact absurd (Or.inl h) hc
        | true => rfl
      have hpos : 0 < s.filesize := Nat.pos_of_ne_zero (fun h => hc (Or.inr h))
      constructor
      · intro hw
        exact ⟨p1 / ((s.filesize + 99) / 100), p2 / ((s.filesize + 99) / 100),
          percentDone_open ({ s with sdpos := p1 } : CardReader) hopen hdone hpos hw
            (le_trans h12 h2),
          percentDone_open ({ s with sdpos := p2 } : CardReader) hopen hdone hpos hw h2,
          Nat.div_le_div_right h12⟩
      · intro hw
        exact ⟨p1 / ((s.filesize + 9999) / 10000), p2 / ((s.filesize + 9999) / 10000),
          permyriadDone_open ({ s with sdpos := p1 } : CardReader) hopen hdone hpos hw
            (le_trans h12 h2),
          permyriadDone_open ({ s with sdpos := p2 } : CardReader) hopen hdone hpos hw h2,
          Nat.div_le_div_right h12⟩

/-- C4 at a failing input: a file of 4294967295 bytes (the largest `uint32_t`
size) open with print-done clear, positions `p1 = 0 ≤ p2 = 1 ≤ filesize`.
Both divisors wrap to zero, so neither `percentDone()` nor `permyriadDone()`
has a result at either position, and there are no returned values in order. -/
theorem C4_no_result_on_wrapped_divisor :
    (0 ≤ 1 ∧ 1 ≤ (mkCard true true true false false 4294967295 0).filesize) ∧
    (mkCard true true true false false 4294967295 0).percentDone = none ∧
    (mkCard true true true false false 4294967295 1).percentDone = none ∧
    (mkCard true true true false false 4294967295 0).permyriadDone = none ∧
    (mkCard true true true false false 4294967295 1).permyriadDone = none ∧
    ¬ (∃ v1 v2, (mkCard true true true false false 4294967295 0).percentDone = some v1 ∧
        (mkCard true true true false false 4294967295 1).percentDone = some v2 ∧ v1 ≤ v2) := by
  have e0 : (mkCard true true true false false 4294967295 0).percentDone = none := by decide
  refine ⟨by decide, e0, by decide, by decide, by decide, ?_⟩
  rintro ⟨v1, v2, h1, -, -⟩
  rw [e0] at h1
  cases h1

/-- C5: with a file open, print-done clear, `filesize > 0` and
`sdpos ≤ filesize`: when `filesize + 99` does not wrap around 32 bits,
`percentDone()` is `floor(sdpos / ceil(filesize / 100))`, which is at most
`floor(100 * sdpos / filesize)` and below 100 whenever `sdpos < filesize`;
when `filesize + 9999` does not wrap, `permyriadDone()` is
`floor(sdpos / ceil(filesize / 10000))`, at most
`floor(10000 * sdpos / filesize)` and below 10000 whenever `sdpos < filesize`. -/
theorem C5_rounded_up_divisor (s : CardReader) (hopen : s.isFileOpen = true)
    (hdone : s.flag.sdprintdone = false) (hpos : 0 < s.filesize)
    (hle : s.sdpos ≤ s.filesize) :
    (s.filesize + 99 < 2 ^ 32 →
      s.percentDone = some (specScaled 100 s.sdpos s.filesize) ∧
      specScaled 100 s.sdpos s.filesize ≤ specRatio 100 s.sdpos s.filesize ∧
      (s.sdpos < s.filesize → specScaled 100 s.sdpos s.filesize < 100)) ∧
    (s.filesize + 9999 < 2 ^ 32 →
      s.permyriadDone = some (specScaled 10000 s.sdpos s.filesize) ∧
      specScaled 10000 s.sdpos s.filesize ≤ specRatio 10000 s.sdpos s.filesize ∧
      (s.sdpos < s.filesize → specScaled 10000 s.sdpos s.filesize < 10000)) := by
  constructor
  · intro hw
    rw [specScaled_eq 100 _ _ (by decide), specRatio_eq]
    exact ⟨percentDone_open s hopen hdone hpos hw hle,
      div_ceilDivisor_le s.sdpos s.filesize 100 (by decide) hpos,
      fun hlt => div_ceilDivisor_lt s.sdpos s.filesize 100 (by decide) hlt⟩
  · intro hw
    rw [specScaled_eq 10000 _ _ (by decide), specRatio_eq]
    exact ⟨permyriadDone_open s hopen hdone hpos hw hle,
      div_ceilDivisor_le s.sdpos s.filesize 10000 (by decide) hpos,
      fun hlt => div_ceilDivisor_lt s.sdpos s.filesize 10000 (by decide) hlt⟩

/-- C5 at a 12345-byte file read to position 12344: the last byte before the
end reports 99 percent and 6172 permyriad. -/
theorem C5_rounded_up_divisor_witness :
    ((mkCard true true true false false 12345 12344).isFileOpen = true ∧
      (mkCard true true true false false 12345 12344).flag.sdprintdone = false ∧
      0 < (mkCard true true true false false 12345 12344).filesize ∧
      (mkCard true true true false false 12345 12344).sdpos ≤
        (mkCard true true true false false 12345 12344).filesize) ∧
    (mkCard true true true false false 12345 12344).percentDone = some 99 ∧
    (mkCard true true true false false 12345 12344).percentDone = some (specScaled 100 12344 12345) ∧
    specScaled 100 12344 12345 < 100 ∧
    (mkCard true true true false false 12345 12344).permyriadDone = some 6172 ∧
    specScaled 10000 12344 12345 < 10000 := by
  have h := C5_rounded_up_divisor (mkCard true true true false false 12345 12344)
    (by decide) (by decide) (by decide) (by decide)
  have hp := h.1 (by decide)
  have hm := h.2 (by decide)
  exact ⟨by decide, by decide, hp.1, hp.2.2 (by decide), by decide, hm.2.2 (by decide)⟩

/-- C10 at a failing input: `filesize = 4294967197 = 2^32 - 99` is a non-zero
32-bit size, a file is open and print-done is clear, yet `filesize + 99` wraps
to 0 and `filesize + 9999` wraps to 9900, so both divisors are 0 and both
progress functions divide by zero. -/
theorem C10_divisor_zero_on_wrap :
    ((mkCard true true true false false 4294967197 0).isFileOpen = true ∧
      (mkCard true true true false false 4294967197 0).flag.sdprintdone = false ∧
      (mkCard true true true false false 4294967197 0).filesize ≠ 0 ∧
      (mkCard true true true false false 4294967197 0).filesize < 2 ^ 32) ∧
    CardReader.percentDivisor 4294967197 = 0 ∧
    CardReader.permyriadDivisor 4294967197 = 0 ∧
    (mkCard true true true false false 4294967197 0).percentDone = none ∧
    (mkCard true true true false false 4294967197 0).permyriadDone = none := by
  decide

/-! ## Claims about the state-changing members -/

/-- C6 as stated fails: with a 10-byte file open at position 0 (so
`sdpos ≤ filesize`), `setIndex(11)` stores 11 in `sdpos` whatever the seek
does, and the position exceeds the size. -/
theorem C6_counterexample :
    ((mkCard true true true false false 10 0).isFileOpen = true ∧
      (mkCard true true true false false 10 0).sdpos ≤
        (mkCard true true true false false 10 0).filesize ∧
      11 < 2 ^ 32) ∧
    (CardReader.setIndex sdFileOps (mkCard true true true false false 10 0) 11).sdpos = 11 ∧
    (CardReader.setIndex sdFileOps (mkCard true true true false false 10 0) 11).filesize = 10 ∧
    ¬ ((CardReader.setIndex sdFileOps (mkCard true true true false false 10 0) 11).sdpos ≤
        (CardReader.setIndex sdFileOps (mkCard true true true false false 10 0) 11).filesize) := by
  decide

/-- C6 (amended): from every state (in particular one with a file open and
`sdpos ≤ filesize`), for every 32-bit index the state after `setIndex(index)`
satisfies `sdpos ≤ filesize` exactly when `index ≤ filesize` (the index is
stored as given), and the state after `get()` satisfies `sdpos ≤ filesize`
when, after the read, the underlying file's position does not exceed its size
and that size is the recorded `filesize`. -/
theorem C6_position_within_size (io : MediaOps) (s : CardReader) :
    (∀ index, index < 2 ^ 32 →
      ((CardReader.setIndex io s index).sdpos ≤ (CardReader.setIndex io s index).filesize ↔
        index ≤ s.filesize)) ∧
    ((io.read s.file).1.curPosition ≤ (io.read s.file).1.fileSize →
      (io.read s.file).1.fileSize = s.filesize →
      (CardReader.get io s).1.sdpos ≤ (CardReader.get io s).1.filesize) := by
  constructor
  · intro index hi
    show index % 2 ^ 32 ≤ s.filesize ↔ index ≤ s.filesize
    rw [Nat.mod_eq_of_lt hi]
  · intro hpos hsz
    show (io.read s.file).1.curPosition % 2 ^ 32 ≤ s.filesize
    have hmod := Nat.mod_le (io.read s.file).1.curPosition (2 ^ 32)
    omega

/-- C6 (amended) on a 10-byte file open at position 3: seeking to 7 and
reading one byte both keep the position within the size. -/
theorem C6_position_within_size_witness :
    ((mkCard true true true false false 10 3).isFileOpen = true ∧
      (mkCard true true true false false 10 3).sdpos ≤
        (mkCard true true true false false 10 3).filesize) ∧
    (CardReader.setIndex sdFileOps (mkCard true true true false false 10 3) 7).sdpos ≤
      (CardReader.setIndex sdFileOps (mkCard true true true false false 10 3) 7).filesize ∧
    (CardReader.get sdFileOps (mkCard true true true false false 10 3)).1.sdpos ≤
      (CardReader.get sdFileOps (mkCard true true true false false 10 3)).1.filesize :=
  ⟨by decide,
    ((C6_position_within_size sdFileOps (mkCard true true true false false 10 3)).1 7
      (by decide)).mpr (by decide),
    (C6_position_within_size sdFileOps (mkCard true true true false false 10 3)).2
      (by decide) (by decide)⟩

/-- C7 as stated fails: with the abort request set and no file open (card
mounted, handle closed), `abortFilePrintSoon()` assigns `isFileOpen()`, which
is false, and so clears the flag. -/
theorem C7_counterexample :
    (mkCard true false false false true 0 0).flag.abort_sd_printing = true ∧
    (mkCard true false false false true 0 0).isFileOpen = false ∧
    (CardReader.abortFilePrintSoon
      (mkCard true false false false true 0 0)).flag.abort_sd_printing = false := by
  decide

/-- C7 (amended): from every job state in which `abort_sd_printing` is set,
the flag is still set after `pauseSDPrint()`, after `setIndex(i)` for every
`i`, and after `get()`; after `abortFilePrintSoon()` it equals `isFileOpen()`,
so it stays set when a file is open and is cleared when none is. -/
theorem C7_abort_flag_after_members (io : MediaOps) (s : CardReader)
    (h : s.flag.abort_sd_printing = true) :
    (CardReader.pauseSDPrint s).flag.abort_sd_printing = true ∧
    (∀ i, (CardReader.setIndex io s i).flag.abort_sd_printing = true) ∧
    (CardReader.get io s).1.flag.abort_sd_printing = true ∧
    (CardReader.abortFilePrintSoon s).flag.abort_sd_printing = s.isFileOpen ∧
    (s.isFileOpen = true → (CardReader.abortFilePrintSoon s).flag.abort_sd_printing = true) ∧
    (s.isFileOpen = false → (CardReader.abortFilePrintSoon s).flag.abort_sd_printing = false) :=
  ⟨h, fun _ => h, h, rfl, fun ho => ho, fun ho => ho⟩

/-- C7 (amended) on a printing job with the abort request already set. -/
theorem C7_abort_flag_after_members_witness :
    (mkCard true true true false true 10 3).flag.abort_sd_printing = true ∧
    (CardReader.pauseSDPrint (mkCard true true true false true 10 3)).flag.abort_sd_printing
      = true ∧
    (CardReader.get sdFileOps (mkCard true true true false true 10 3)).1.flag.abort_sd_printing
      = true ∧
    (CardReader.abortFilePrintSoon (mkCard true true true false true 10 3)).flag.abort_sd_printing
      = true :=
  ⟨by decide,
    (C7_abort_flag_after_members sdFileOps (mkCard true true true false true 10 3)
      (by decide)).1,
    (C7_abort_flag_after_members sdFileOps (mkCard true true true false true 10 3)
      (by decide)).2.2.1,
    (C7_abort_flag_after_members sdFileOps (mkCard true true true false true 10 3)
      (by decide)).2.2.2.2.1 (by decide)⟩

/-- C8 as stated fails: on a printing job (10-byte file open at position 5)
`abortFilePrintSoon()` leaves the file open, printing set, `sdpos = 5` and
`filesize = 10`; only the abort request is recorded. -/
theorem C8_counterexample :
    (CardReader.abortFilePrintSoon (mkCard true true true false false 10 5)).isFileOpen = true ∧
    (CardReader.abortFilePrintSoon (mkCard true true true false false 10 5)).isPrinting = true ∧
    (CardReader.abortFilePrintSoon (mkCard true true true false false 10 5)).sdpos = 5 ∧
    (CardReader.abortFilePrintSoon (mkCard true true true false false 10 5)).filesize = 10 ∧
    (CardReader.abortFilePrintSoon
      (mkCard true true true false false 10 5)).flag.abort_sd_printing = true := by
  decide

/-- C8 (amended): for every job state, `abortFilePrintSoon()` only records the
request: `abort_sd_printing` becomes `isFileOpen()`, while the file handle,
`isFileOpen()`, the printing flag, every other flag, `sdpos` and `filesize`
are unchanged. -/
theorem C8_abort_soon_only_requests (s : CardReader) :
    (CardReader.abortFilePrintSoon s).flag.abort_sd_printing = s.isFileOpen ∧
    (CardReader.abortFilePrintSoon s).file = s.file ∧
    (CardReader.abortFilePrintSoon s).isFileOpen = s.isFileOpen ∧
    (CardReader.abortFilePrintSoon s).isPrinting = s.isPrinting ∧
    (CardReader.abortFilePrintSoon s).sdpos = s.sdpos ∧
    (CardReader.abortFilePrintSoon s).filesize = s.filesize ∧
    CardReader.abortFilePrintSoon s =
      { s with flag := { s.flag with abort_sd_printing := s.isFileOpen } } :=
  ⟨rfl, rfl, rfl, rfl, rfl, rfl, rfl⟩

/-- C9: for every job state with a file open, after `pauseSDPrint()`
`isPrinting()` is false and `isPaused()` is true; in every state the flags
saving, logging, sdprintdone, mounted, filenameIsDir, workDirIsRoot and
abort_sd_printing (and the two optional bits), the file handle, `filesize`
and `sdpos` are unchanged; with no file open `isPaused()` is false before and
after; and `pauseSDPrint()` is idempotent. -/
theorem C9_pause_frame (s : CardReader) :
    (s.isFileOpen = true →
      (CardReader.pauseSDPrint s).isPrinting = false ∧
      (CardReader.pauseSDPrint s).isPaused = true) ∧
    ((CardReader.pauseSDPrint s).flag.saving = s.flag.saving ∧
      (CardReader.pauseSDPrint s).flag.logging = s.flag.logging ∧
      (CardReader.pauseSDPrint s).flag.sdprintdone = s.flag.sdprintdone ∧
      (CardReader.pauseSDPrint s).flag.mounted = s.flag.mounted ∧
      (CardReader.pauseSDPrint s).flag.filenameIsDir = s.flag.filenameIsDir ∧
      (CardReader.pauseSDPrint s).flag.workDirIsRoot = s.flag.workDirIsRoot ∧
      (CardReader.pauseSDPrint s).flag.abort_sd_printing = s.flag.abort_sd_printing ∧
      (CardReader.pauseSDPrint s).flag.filenameIsBin = s.flag.filenameIsBin ∧
      (CardReader.pauseSDPrint s).flag.binary_mode = s.flag.binary_mode) ∧
    ((CardReader.pauseSDPrint s).file = s.file ∧
      (CardReader.pauseSDPrint s).isFileOpen = s.isFileOpen ∧
      (CardReader.pauseSDPrint s).filesize = s.filesize ∧
      (CardReader.pauseSDPrint s).sdpos = s.sdpos) ∧
    (s.isFileOpen = false →
      s.isPaused = false ∧ (CardReader.pauseSDPrint s).isPaused = false) ∧
    CardReader.pauseSDPrint (CardReader.pauseSDPrint s) = CardReader.pauseSDPrint s := by
  refine ⟨fun ho => ⟨rfl, ?_⟩, ⟨rfl, rfl, rfl, rfl, rfl, rfl, rfl, rfl, rfl⟩,
    ⟨rfl, rfl, rfl, rfl⟩, fun hc => ⟨?_, ?_⟩, rfl⟩
  · show ((CardReader.pauseSDPrint s).isFileOpen && !(CardReader.pauseSDPrint s).isPrinting) = true
    have e : (CardReader.pauseSDPrint s).isFileOpen = s.isFileOpen := rfl
    have p : (CardReader.pauseSDPrint s).isPrinting = false := rfl
    rw [e, p, ho]
    rfl
  · show (s.isFileOpen && !s.isPrinting) = false
    rw [hc]
    rfl
  · show ((CardReader.pauseSDPrint s).isFileOpen && !(CardReader.pauseSDPrint s).isPrinting) = false
    have e : (CardReader.pauseSDPrint s).isFileOpen = s.isFileOpen := rfl
    rw [e, hc]
    rfl

/-- C9 on a printing job (10-byte file open at position 5, abort requested):
pausing gives a paused, non-printing job; and on a state with no file open
`isPaused()` is false after pausing. -/
theorem C9_pause_frame_witness :
    (mkCard true true true false true 10 5).isFileOpen = true ∧
    (CardReader.pauseSDPrint (mkCard true true true false true 10 5)).isPrinting = false ∧
    (CardReader.pauseSDPrint (mkCard true true true false true 10 5)).isPaused = true ∧
    (mkCard false false true false false 0 0).isFileOpen = false ∧
    (CardReader.pauseSDPrint (mkCard false false true false false 0 0)).isPaused = false :=
  ⟨by decide,
    ((C9_pause_frame (mkCard true true true false true 10 5)).1 (by decide)).1,
    ((C9_pause_frame (mkCard true true true false true 10 5)).1 (by decide)).2,
    by decide,
    ((C9_pause_frame (mkCard false false true false false 0 0)).2.2.2.1 (by decide)).2⟩
